import Mathlib

/-!
Shallow embedding of the MediaProof audio-service analysis pipeline
(`src/api/analyze.js` and the unnamed handler variants) together with
theorems settling the specification claims.

Conventions of the embedding:
* a byte buffer (`Buffer` / `Uint8Array`) is a `List Byte` with `Byte := Fin 256`;
* JavaScript floating-point arithmetic on scores is modelled over `ℝ`;
  `Math.round` (round half away from zero, and all arguments here are
  nonnegative) is `jsRound x = ⌊x + 1/2⌋`;
* `Math.log2` is `Real.logb 2`;
* fallible JS code (try/catch, optional fields) is modelled with `Option`
  and explicit sum types.
-/

open Real Finset

/-- Bytes as stored in a Node `Buffer` / `Uint8Array`. -/
abbrev Byte := Fin 256

/-- JavaScript `Math.round` for the nonnegative arguments used by the
pipeline: round half away from zero, i.e. `⌊x + 1/2⌋`. -/
noncomputable def jsRound (x : ℝ) : ℤ := ⌊x + 1/2⌋

/-- The byte-value histogram `freq` built by `simpleEntropyEstimate`
(`src/api/analyze.js` lines 17-18): `freq[v]` = number of occurrences of
byte value `v` in the buffer. -/
def byteFreq (buf : List Byte) (v : Byte) : ℕ := buf.count v

/-- The Shannon-entropy accumulator `sum` of `simpleEntropyEstimate`
(`src/api/analyze.js` lines 19-25): over all 256 byte values, buckets with
`freq[i] > 0` contribute `-p * Math.log2 p` with `p = freq[i] / buf.length`. -/
noncomputable def entropySum (buf : List Byte) : ℝ :=
  ∑ v : Byte, if 0 < byteFreq buf v then
    -((byteFreq buf v : ℝ) / buf.length) * Real.logb 2 ((byteFreq buf v : ℝ) / buf.length)
  else 0

/-- `simpleEntropyEstimate` (`src/api/analyze.js` lines 15-31): normalised
Shannon entropy `sum / 8`, rounded to two decimals. -/
noncomputable def simpleEntropyEstimate (buf : List Byte) : ℝ :=
  (jsRound ((entropySum buf / 8) * 100) : ℝ) / 100

/-- `heuristics.zeroByteRatio` (`src/unnamed/part_001` lines 167-171):
fraction of bytes equal to 0, rounded to two decimals. -/
noncomputable def zeroByteRatio (buf : List Byte) : ℝ :=
  (jsRound (((buf.count 0 : ℝ) / buf.length) * 100) : ℝ) / 100

/-- The value returned by `callHuggingFaceAudio` (`src/api/analyze.js`
lines 52-97), or assigned to `hf` by the handler itself (lines 234-243).
Each constructor corresponds to one object literal in the source; none of
those literals has a `score` property. -/
inductive HFResult where
  /-- `{ note: "Hugging Face not configured" }` / `{ note: "HF not configured" }` -/
  | note (s : String)
  /-- `{ error: "HF inference failed", status1, text1, status2, text2 }` -/
  | inferenceFailed (status1 : ℕ) (text1 : String) (status2 : ℕ) (text2 : String)
  /-- `{ raw: json }` or `{ raw: txt }` -/
  | raw (payload : Option String)
  /-- `{ error: "HF call failed", detail }` / `{ error: "hf-call-failed", detail }` -/
  | callFailed (detail : String)
deriving DecidableEq

/-- The JS property access `hf?.score`: none of the object shapes returned
by `callHuggingFaceAudio` carries a `score` field, so the access yields
`undefined` (here `none`) for every constructor. -/
def HFResult.scoreField : HFResult → Option ℝ := fun _ => none

/-- `audioAiScore = Number(hf?.score ?? 0) || 0` (`src/api/analyze.js`
line 246). -/
noncomputable def audioAiScore (hf : HFResult) : ℝ := (hf.scoreField).getD 0

/-- `composite = Math.round(((audioAiScore * 0.7) + (heurScore * 0.3)) * 100) / 100`
with `heurScore = Number(entropy) || 0` (`src/api/analyze.js` lines 246-248). -/
noncomputable def compositeScore (hf : HFResult) (buf : List Byte) : ℝ :=
  (jsRound ((audioAiScore hf * 0.7 + simpleEntropyEstimate buf * 0.3) * 100) : ℝ) / 100

/- ### Ensemble handler (`src/api/analyze.js` lines 283-410) -/

/-- One element of a JSON array returned by an upstream model: the
`label` and `score` properties the handler reads (either may be absent,
i.e. `undefined`). Scores are modelled over `ℚ`. -/
structure RespItem where
  label : Option String
  score : Option ℚ
deriving DecidableEq

/-- The observable outcome of `fetch` + `res.json()` inside `queryModel`
(`src/api/analyze.js` lines 396-410): the fetch or JSON parse threw
(transport error, timeout, non-JSON body), or parsed JSON that is not an
array, or an array of items. -/
inductive UpstreamResp where
  | transportError
  | nonArray
  | arr (items : List RespItem)
deriving DecidableEq

/-- `pat` occurs as a contiguous subsequence of `l` (the semantics of
JS `String.prototype.includes`). -/
def containsSeq {α : Type} [BEq α] (pat : List α) : List α → Bool
  | [] => pat.isEmpty
  | x :: xs => pat.isPrefixOf (x :: xs) || containsSeq pat xs

/-- ASCII lower-casing of one character, as the `/i` regex flag applies it. -/
def lowerChar (c : Char) : Char :=
  if 'A' ≤ c ∧ c ≤ 'Z' then Char.ofNat (c.toNat + 32) else c

/-- The regex test `x.label.match(/fake|artificial|synthetic/i)`:
case-insensitive substring search. -/
def labelMatches (s : String) : Bool :=
  let t := s.toList.map lowerChar
  containsSeq "fake".toList t || containsSeq "artificial".toList t ||
    containsSeq "synthetic".toList t

/-- Outcome of `json.find(x => x.label.match(/fake|artificial|synthetic/i))`:
the predicate throws a `TypeError` on the first item whose `label` is
`undefined`, otherwise the first matching item (with its optional `score`)
is found, or nothing matches. -/
inductive FindOutcome where
  | threw
  | notFound
  | found (score : Option ℚ)
deriving DecidableEq

/-- `Array.prototype.find` with the throwing predicate of `queryModel`. -/
def findFake : List RespItem → FindOutcome
  | [] => .notFound
  | item :: rest =>
    match item.label with
    | none => .threw
    | some l => if labelMatches l then .found item.score else findFake rest

/-- `queryModel` (`src/api/analyze.js` lines 396-410) as a function of the
upstream outcome. A thrown error is caught and turned into `0`; a
non-array JSON body returns `0`; `fake ? fake.score : 0` returns the
(possibly `undefined`, i.e. `none`) score of the first matching item or
`0` when nothing matched. `none` models the JS value `undefined`. -/
def queryModel : UpstreamResp → Option ℚ
  | .transportError => some 0
  | .nonArray => some 0
  | .arr items =>
    match findFake items with
    | .threw => some 0
    | .notFound => some 0
    | .found s => s

/-- An upstream call that "failed" in the sense of the specification:
transport error or timeout, non-JSON response, or a response from which no
numeric score can be extracted. -/
def upstreamFailed : UpstreamResp → Prop
  | .transportError => True
  | .nonArray => True
  | .arr items =>
    match findFake items with
    | .found (some _) => False
    | _ => True

/-- One iteration of `if (score > aiScore) aiScore = score`
(`src/api/analyze.js` lines 338-339); a comparison against `undefined`
is false, leaving the accumulator unchanged. -/
def stepAi (acc : ℚ) (r : UpstreamResp) : ℚ :=
  match queryModel r with
  | none => acc
  | some s => if s > acc then s else acc

/-- The `aiScore` computed by the ensemble handler (`src/api/analyze.js`
lines 335-341): `0` when `HF_API_KEY` is unset, otherwise the running
maximum of the model scores starting from `0`. -/
def aiScoreOf (hfKeyConfigured : Bool) (rs : List UpstreamResp) : ℚ :=
  if hfKeyConfigured then rs.foldl stepAi 0 else 0

/-- `metaRisk` (`src/api/analyze.js` lines 317-325): `0.75` when the
header is MP3 with an FFmpeg/LAME trace, else `0`. -/
def metaRiskOf (isMp3 hasLavf : Bool) : ℚ :=
  if isMp3 && hasLavf then 0.75 else 0

/- ### Signal analysis (`src/api/analyze.js` lines 371-394) -/

/-- Loop state of `analyzeSignal`: `zeroCount`, `min`, `max`,
`silenceSegments`. -/
structure SignalState where
  zeroCount : ℕ
  min : ℕ
  max : ℕ
  segs : ℕ
deriving DecidableEq

/-- One iteration of the `analyzeSignal` loop body
(`src/api/analyze.js` lines 378-387). -/
def signalStep (st : SignalState) (val : Byte) : SignalState :=
  let mn := if (val : ℕ) < st.min then (val : ℕ) else st.min
  let mx := if (val : ℕ) > st.max then (val : ℕ) else st.max
  if (val : ℕ) = 0 ∨ (val : ℕ) = 128 then
    let z := st.zeroCount + 1
    { zeroCount := z, min := mn, max := mx,
      segs := if z > 50 then st.segs + 1 else st.segs }
  else
    { zeroCount := 0, min := mn, max := mx, segs := st.segs }

/-- Helper for `sampleStride`: `skip` counts how many further elements are
passed over before the next sampled index. -/
def strideAux : ℕ → List Byte → List Byte
  | _, [] => []
  | 0, x :: xs => x :: strideAux 49 xs
  | n + 1, _ :: xs => strideAux n xs

/-- The samples visited by `for (let i = 0; i < data.length; i += 50)`:
every 50th element of the buffer. -/
def sampleStride (l : List Byte) : List Byte := strideAux 0 l

/-- Result record of `analyzeSignal` (`src/api/analyze.js` lines 390-393). -/
structure Physics where
  hasDigitalSilence : Bool
  dynamicRange : ℤ
deriving DecidableEq

/-- `analyzeSignal` (`src/api/analyze.js` lines 371-394): scan at stride
50, track min/max and runs of flat bytes (0 or 128); a silence segment is
counted each time the run counter exceeds 50, and detection fires once
more than 2 segments were counted. -/
def analyzeSignal (data : List Byte) : Physics :=
  let st := (sampleStride data).foldl signalStep ⟨0, 255, 0, 0⟩
  { hasDigitalSilence := decide (st.segs > 2),
    dynamicRange := (st.max : ℤ) - (st.min : ℤ) }

/-- `physicsScore` (`src/api/analyze.js` lines 329-332): `+0.4` for
digital silence, `+0.3` for a dynamic range under 30. -/
def physicsScoreOf (p : Physics) : ℚ :=
  (if p.hasDigitalSilence then 0.4 else 0) + (if p.dynamicRange < 30 then 0.3 else 0)

/-- `finalScore = Math.max(aiScore, physicsScore, metaRisk)`
(`src/api/analyze.js` line 345). -/
def finalScore (ai physics meta : ℚ) : ℚ := max ai (max physics meta)

/-- The `method` tag (`src/api/analyze.js` lines 347-350). -/
def methodOf (ai physics meta : ℚ) : String :=
  if ai > 0.5 then "NEURAL_AUDIO_NET"
  else if meta > 0.5 then "ENCODER_FINGERPRINT"
  else if physics > 0.5 then "SIGNAL_PHYSICS"
  else "UNCERTAIN"

/- ### Deterministic pseudo-random test buffers -/

/-- Reduce a natural number to a byte, as `Uint8Array` storage does. -/
def natToByte (n : ℕ) : Byte := ⟨n % 256, Nat.mod_lt _ (by norm_num)⟩

/-- A deterministic scrambled byte at index `i` (linear-congruential
mixing), used only to build concrete "uniformly random" test buffers for
the silence-detection scenario; not part of the source. -/
def pseudoRandomByte (i : ℕ) : Byte :=
  natToByte ((1103515245 * (i + 1) + 12345) / 65536)

/-- A concrete pseudo-random buffer of `n` bytes. -/
def pseudoRandomBuf (n : ℕ) : List Byte := (List.range n).map pseudoRandomByte

/- ### Format detection (`src/unnamed/part_001` lines 192-199) -/

/-- Node's `"ascii"` string decoding of one byte: the high bit is cleared. -/
def asciiByte (b : Byte) : ℕ := (b : ℕ) % 128

/-- `buffer.slice(0,n).toString("ascii")` as a list of character codes. -/
def asciiTake (n : ℕ) (buf : List Byte) : List ℕ := (buf.take n).map asciiByte

/-- `quick.likelyFormat` (`src/unnamed/part_001` lines 192-199):
`slice(0,4).toString("ascii").includes("RIFF")` → wav,
`slice(0,3).toString("ascii") === "ID3"` → mp3,
`slice(0,4).toString("ascii").includes("fLaC")` → flac, else unknown.
Character codes: `RIFF = [82,73,70,70]`, `ID3 = [73,68,51]`,
`fLaC = [102,76,97,67]`. -/
def likelyFormat (buf : List Byte) : String :=
  if containsSeq [82,73,70,70] (asciiTake 4 buf) then "wav"
  else if asciiTake 3 buf = [73,68,51] then "mp3"
  else if containsSeq [102,76,97,67] (asciiTake 4 buf) then "flac"
  else "unknown"

/- ### Node base64 decoding (`Buffer.from(b64, "base64")`) -/

/-- The base64 value of one character under Node's forgiving decoder
(standard and URL-safe alphabets); a non-alphabet character is skipped,
not an error. The padding character `=` is special: it stops decoding
altogether (handled in `base64DecodeChars`). -/
def base64CharVal (c : Char) : Option ℕ :=
  if 'A' ≤ c ∧ c ≤ 'Z' then some (c.toNat - 65)
  else if 'a' ≤ c ∧ c ≤ 'z' then some (c.toNat - 97 + 26)
  else if '0' ≤ c ∧ c ≤ '9' then some (c.toNat - 48 + 52)
  else if c = '+' ∨ c = '-' then some 62
  else if c = '/' ∨ c = '_' then some 63
  else none

/-- Reassemble decoded 6-bit groups into bytes (4 sextets → 3 bytes, with
the usual truncated tail groups). -/
def sextetsToBytes : List ℕ → List Byte
  | a :: b :: c :: d :: rest =>
    natToByte (a*4 + b/16) :: natToByte ((b%16)*16 + c/4) ::
      natToByte ((c%4)*64 + d) :: sextetsToBytes rest
  | [a, b] => [natToByte (a*4 + b/16)]
  | [a, b, c] => [natToByte (a*4 + b/16), natToByte ((b%16)*16 + c/4)]
  | _ => []

/-- `true` for every character except the base64 padding character `=`. -/
def notPadChar (c : Char) : Bool := c != '='

/-- Node's lossy base64 decode on a character list: decoding stops at the
first `=`, and within the decoded range invalid characters are silently
dropped. -/
def base64DecodeChars (cs : List Char) : List Byte :=
  sextetsToBytes ((cs.takeWhile notPadChar).filterMap base64CharVal)

/-- `base64ToBuffer` (`src/api/analyze.js` lines 10-12):
`Buffer.from(b64, "base64")` with Node's forgiving semantics. -/
def base64ToBuffer (s : String) : List Byte := base64DecodeChars s.toList

/- ### Fingerprint (`src/api/analyze.js` lines 34-49) -/

/-- One hexadecimal digit (lowercase), as produced by `toString(16)`. -/
def hexDigit (n : ℕ) : Char :=
  if n < 10 then Char.ofNat (48 + n) else Char.ofNat (87 + n)

/-- Fuel-bounded most-significant-first hex digits of `n`. -/
def natToHexAux : ℕ → ℕ → List Char
  | 0, _ => []
  | fuel + 1, n => if n = 0 then [] else natToHexAux fuel (n / 16) ++ [hexDigit (n % 16)]

/-- `n.toString(16)` for 64-bit values. -/
def natToHex (n : ℕ) : String := if n = 0 then "0" else ⟨natToHexAux 16 n⟩

/-- `fingerprintStub` (`src/api/analyze.js` lines 34-49): a 64-bit
FNV-style hash over up to 1024 bytes sampled evenly across the buffer,
rendered in hex. The fold is seeded with the source's own literal
`1469598103934665603n` (line 37). The sampled index `⌊i·len/sampleCount⌋`
is always in range, so the JS indexing never yields `undefined` and the
catch branch returning `null` is unreachable. -/
def fingerprintStub (buf : List Byte) : Option String :=
  let len := buf.length
  let sampleCount := min 1024 len
  let a := (List.range sampleCount).foldl
    (fun acc i => ((acc ^^^ (buf.getD ((i * len) / sampleCount) 0 : ℕ)) * 1099511628211)
      % 18446744073709551616)
    1469598103934665603
  some (natToHex a)

/- ### SHA-256 (`sha256Hex`, `src/unnamed/part_001` lines 25-27) -/

/-- Right rotation of a 32-bit word. -/
def rotr32 (x n : ℕ) : ℕ := (x / 2^n + (x % 2^n) * 2^(32-n)) % 4294967296

/-- Bitwise complement of a 32-bit word. -/
def not32 (x : ℕ) : ℕ := 4294967295 - x

/-- The 64 SHA-256 round constants (fractional cube-root words, decimal). -/
def sha256K : List ℕ :=
  [1116352408, 1899447441, 3049323471, 3921009573, 961987163,
   1508970993, 2453635748, 2870763221, 3624381080, 310598401,
   607225278, 1426881987, 1925078388, 2162078206, 2614888103,
   3248222580, 3835390401, 4022224774, 264347078, 604807628,
   770255983, 1249150122, 1555081692, 1996064986, 2554220882,
   2821834349, 2952996808, 3210313671, 3336571891, 3584528711,
   113926993, 338241895, 666307205, 773529912, 1294757372,
   1396182291, 1695183700, 1986661051, 2177026350, 2456956037,
   2730485921, 2820302411, 3259730800, 3345764771, 3516065817,
   3600352804, 4094571909, 275423344, 430227734, 506948616,
   659060556, 883997877, 958139571, 1322822218, 1537002063,
   1747873779, 1955562222, 2024104815, 2227730452, 2361852424,
   2428436474, 2756734187, 3204031479, 3329325298]

/-- The SHA-256 initial hash value (fractional square-root words, decimal). -/
def sha256H0 : List ℕ :=
  [1779033703, 3144134277, 1013904242, 2773480762,
   1359893119, 2600822924, 528734635, 1541459225]

/-- 8-byte big-endian encoding of `n`. -/
def bigEndian8 (n : ℕ) : List ℕ :=
  [n / 2^56 % 256, n / 2^48 % 256, n / 2^40 % 256, n / 2^32 % 256,
   n / 2^24 % 256, n / 2^16 % 256, n / 2^8 % 256, n % 256]

/-- SHA-256 message padding: `0x80`, zeros to 56 mod 64, 64-bit big-endian
bit length. -/
def sha256Pad (msg : List ℕ) : List ℕ :=
  let L := msg.length
  let k := (120 - ((L + 1) % 64)) % 64
  msg ++ [128] ++ List.replicate k 0 ++ bigEndian8 (8 * L)

/-- Group big-endian bytes into 32-bit words. -/
def bytesToWords32 : List ℕ → List ℕ
  | a :: b :: c :: d :: rest => (a*16777216 + b*65536 + c*256 + d) :: bytesToWords32 rest
  | _ => []

/-- Extend a 16-word block to the 64-entry message schedule. -/
def sha256Schedule (w : List ℕ) : List ℕ :=
  (List.range 48).foldl
    (fun acc t =>
      let s0 := (rotr32 (acc.getD (t+1) 0) 7) ^^^ (rotr32 (acc.getD (t+1) 0) 18)
        ^^^ (acc.getD (t+1) 0 / 2^3)
      let s1 := (rotr32 (acc.getD (t+14) 0) 17) ^^^ (rotr32 (acc.getD (t+14) 0) 19)
        ^^^ (acc.getD (t+14) 0 / 2^10)
      acc ++ [(acc.getD t 0 + s0 + acc.getD (t+9) 0 + s1) % 4294967296])
    w

/-- One SHA-256 compression step over a 64-entry schedule. -/
def sha256Compress (h : List ℕ) (w : List ℕ) : List ℕ :=
  let step := fun (st : List ℕ) (t : ℕ) =>
    let a := st.getD 0 0
    let b := st.getD 1 0
    let c := st.getD 2 0
    let d := st.getD 3 0
    let e := st.getD 4 0
    let f := st.getD 5 0
    let g := st.getD 6 0
    let hh := st.getD 7 0
    let s1 := (rotr32 e 6) ^^^ (rotr32 e 11) ^^^ (rotr32 e 25)
    let ch := (Nat.land e f) ^^^ (Nat.land (not32 e) g)
    let t1 := (hh + s1 + ch + sha256K.getD t 0 + w.getD t 0) % 4294967296
    let s0 := (rotr32 a 2) ^^^ (rotr32 a 13) ^^^ (rotr32 a 22)
    let mj := (Nat.land a b) ^^^ (Nat.land a c) ^^^ (Nat.land b c)
    let t2 := (s0 + mj) % 4294967296
    [(t1 + t2) % 4294967296, a, b, c, (d + t1) % 4294967296, e, f, g]
  let fin := (List.range 64).foldl step h
  (List.range 8).map (fun i => (h.getD i 0 + fin.getD i 0) % 4294967296)

/-- Fold the compression function over consecutive 16-word blocks (the
fuel, set to the word count by `sha256Blocks`, dominates the number of
16-word steps). -/
def sha256BlocksAux : ℕ → List ℕ → List ℕ → List ℕ
  | _, h, [] => h
  | 0, h, _ :: _ => h
  | fuel + 1, h, w :: ws =>
    sha256BlocksAux fuel (sha256Compress h (sha256Schedule ((w :: ws).take 16)))
      ((w :: ws).drop 16)

/-- Fold the compression function over all 16-word blocks of the padded
message. -/
def sha256Blocks (h ws : List ℕ) : List ℕ := sha256BlocksAux ws.length h ws

/-- 8 hex characters (zero-padded) of one 32-bit word. -/
def word32Hex (n : ℕ) : List Char :=
  (List.range 8).map (fun i => hexDigit (n / 2^(4*(7-i)) % 16))

/-- `sha256Hex` (`src/unnamed/part_001` lines 25-27): hex digest of the
buffer. `crypto.createHash("sha256")` is Node library code; this is the
FIPS 180-4 function it implements, over the exact bytes of the buffer. -/
def sha256Hex (buf : List Byte) : String :=
  let digest := sha256Blocks sha256H0 (bytesToWords32 (sha256Pad (buf.map (fun b => (b : ℕ)))))
  ⟨(digest.map word32Hex).flatten⟩

/- ### Handler pipeline (`src/api/analyze.js` lines 109-282) -/

/-- The result of `mm.parseStream` (`music-metadata` is external library
code): either a parsed metadata payload or the catch branch's record, kept
opaque. -/
inductive MetaResult where
  | parsed (payload : String)
  | parseFailed (detail : String)
deriving DecidableEq

/-- The `out` record assembled by the main handler
(`src/api/analyze.js` lines 250-259). -/
structure Report where
  filename : String
  mimetype : String
  size : ℕ
  metadata : MetaResult
  entropy : ℝ
  fingerprint : Option String
  hf : HFResult
  composite : ℝ
  breakdownAi : ℝ
  breakdownHeuristics : ℝ
  processedAt : String

/-- A response sent by the main handler: an error status with message, or
the 200 response carrying the report, or the continuation that fetches a
remote URL (a network boundary, represented symbolically). -/
inductive HandlerResult where
  | errorResp (status : ℕ) (msg : String)
  | success (report : Report)
  | urlFetch (url : String)

/-- Constructor discriminator for `HandlerResult.success`. -/
def HandlerResult.isSuccess : HandlerResult → Bool
  | .success _ => true
  | _ => false

/-- Scoring section of the main handler (`src/api/analyze.js` lines
212-259): heuristics, optional HF signal, composite score, report. -/
noncomputable def scoringPipeline (hf : HFResult) (meta : MetaResult) (now : String)
    (filename mimetype : String) (buf : List Byte) : Report :=
  { filename := filename
    mimetype := mimetype
    size := buf.length
    metadata := meta
    entropy := simpleEntropyEstimate buf
    fingerprint := fingerprintStub buf
    hf := hf
    composite := compositeScore hf buf
    breakdownAi := audioAiScore hf
    breakdownHeuristics := simpleEntropyEstimate buf
    processedAt := now }

/-- Size guard plus scoring (`src/api/analyze.js` lines 206-276): reject
with 413 when the buffer exceeds `MAX_BYTES`, otherwise produce the
report. -/
noncomputable def handlerPost (maxBytes : ℕ) (hf : HFResult) (meta : MetaResult)
    (now filename mimetype : String) (buf : List Byte) : HandlerResult :=
  if buf.length > maxBytes then
    .errorResp 413 s!"File too large (max {maxBytes} bytes)"
  else
    .success (scoringPipeline hf meta now filename mimetype buf)

/-- The JSON body fields the handler reads (`filename`, `mimetype`,
`data`, `url`); any may be absent. -/
structure JsonBody where
  data : Option String
  url : Option String
  filename : Option String
  mimetype : Option String
deriving DecidableEq

/-- JS truthiness of an optional string field (`undefined` and `""` are
falsy). -/
def strTruthy : Option String → Bool
  | none => false
  | some s => !(s == "")

/-- JS `field || dflt` for an optional string field: `undefined` and a
present-but-empty string both fall back to the default. -/
def strOr : Option String → String → String
  | none, dflt => dflt
  | some s, dflt => if s = "" then dflt else s

/-- The JSON branch of the main handler (`src/api/analyze.js` lines
139-168) followed by the size guard and scoring: reject when neither
`data` nor `url` is truthy; decode base64 `data`; hand a `url` to the
remote-fetch boundary. -/
noncomputable def handlerJson (maxBytes : ℕ) (hf : HFResult) (meta : MetaResult)
    (now defaultFilename : String) (body : JsonBody) : HandlerResult :=
  if ¬ strTruthy body.data ∧ ¬ strTruthy body.url then
    .errorResp 400 "JSON must include `data` (base64) or `url`"
  else if strTruthy body.data then
    handlerPost maxBytes hf meta now (strOr body.filename defaultFilename)
      (strOr body.mimetype "application/octet-stream")
      (base64ToBuffer (body.data.getD ""))
  else
    .urlFetch (body.url.getD "")

/- ### Enterprise report (`src/unnamed/part_001` lines 155-208) -/

/-- The derived feature set of C7: everything computed from the bytes
alone (content hash, entropy, zero-byte ratio, fingerprint, format
guess). -/
structure DerivedFeatures where
  sha256 : String
  entropy : ℝ
  zeroByteRatio : ℝ
  fingerprint : Option String
  formatGuess : String

/-- All byte-derived features, in one record. -/
noncomputable def deriveFeatures (buf : List Byte) : DerivedFeatures :=
  { sha256 := sha256Hex buf
    entropy := simpleEntropyEstimate buf
    zeroByteRatio := zeroByteRatio buf
    fingerprint := fingerprintStub buf
    formatGuess := likelyFormat buf }

/-- The report record of `src/unnamed/part_001` lines 201-208 (metadata,
heuristics, quick checks, external audio report, timestamp).
`isLikelySpeech` is the predicate of lines 186-191. -/
structure EnterpriseReport where
  filename : String
  mimetype : String
  size : ℕ
  sha256 : String
  entropy : ℝ
  zeroByteRatio : ℝ
  isLikelySpeech : Prop
  likelyFormat : String
  audioReport : Option String
  processedAt : String

/-- Assembly of the part_001 report for one request. -/
noncomputable def enterpriseReport (now filename mimetype : String)
    (audioReport : Option String) (buf : List Byte) : EnterpriseReport :=
  { filename := filename
    mimetype := mimetype
    size := buf.length
    sha256 := sha256Hex buf
    entropy := simpleEntropyEstimate buf
    zeroByteRatio := zeroByteRatio buf
    isLikelySpeech := simpleEntropyEstimate buf > 3 ∧ zeroByteRatio buf < 0.7
    likelyFormat := likelyFormat buf
    audioReport := audioReport
    processedAt := now }

/- ### Basic facts about `jsRound` -/

theorem jsRound_nonneg {x : ℝ} (hx : 0 ≤ x) : 0 ≤ jsRound x := by
  rw [jsRound, Int.le_floor]
  push_cast
  linarith

theorem jsRound_le {x : ℝ} {c : ℤ} (hx : x ≤ c) : jsRound x ≤ c := by
  rw [jsRound]
  have : (⌊x + 1/2⌋ : ℝ) ≤ x + 1/2 := Int.floor_le _
  have h2 : (⌊x + 1/2⌋ : ℝ) < c + 1 := by linarith
  exact_mod_cast Int.lt_add_one_iff.mp (by exact_mod_cast h2)

/- ### Histogram facts -/

theorem sum_byteFreq (buf : List Byte) : ∑ v : Byte, byteFreq buf v = buf.length := by
  induction buf with
  | nil => simp [byteFreq]
  | cons b rest ih =>
    have hstep : ∀ v : Byte, byteFreq (b :: rest) v = byteFreq rest v + if b = v then 1 else 0 := by
      intro v
      simp only [byteFreq, List.count_cons, beq_iff_eq]
    rw [Finset.sum_congr rfl (fun v _ => hstep v), Finset.sum_add_distrib, ih]
    have hone : (∑ v : Byte, if b = v then (1:ℕ) else 0) = 1 := by simp
    rw [hone]
    simp

theorem byteFreq_le_length (buf : List Byte) (v : Byte) : byteFreq buf v ≤ buf.length :=
  List.count_le_length v buf

/- ### Entropy bounds -/

theorem entropySum_nonneg (buf : List Byte) : 0 ≤ entropySum buf := by
  apply Finset.sum_nonneg
  intro v _
  split
  · rename_i hpos
    set p : ℝ := (byteFreq buf v : ℝ) / buf.length with hp
    have hlen : 0 < buf.length := lt_of_lt_of_le hpos (byteFreq_le_length buf v)
    have hp0 : 0 < p := by
      apply div_pos (by exact_mod_cast hpos) (by exact_mod_cast hlen)
    have hp1 : p ≤ 1 := by
      rw [hp, div_le_one (by exact_mod_cast hlen)]
      exact_mod_cast byteFreq_le_length buf v
    have hlog : Real.logb 2 p ≤ 0 :=
      Real.logb_nonpos (by norm_num) (le_of_lt hp0) hp1
    nlinarith
  · exact le_refl 0

theorem entropySum_eq_negMulLog (buf : List Byte) :
    entropySum buf =
      (∑ v : Byte, Real.negMulLog ((byteFreq buf v : ℝ) / buf.length)) / Real.log 2 := by
  rw [entropySum, Finset.sum_div]
  apply Finset.sum_congr rfl
  intro v _
  split
  · rw [Real.negMulLog, Real.logb]
    ring
  · rename_i hz
    have hz0 : byteFreq buf v = 0 := by omega
    rw [hz0]
    norm_num [Real.negMulLog]

set_option maxRecDepth 8000 in
theorem sum_negMulLog_le (buf : List Byte) (hne : buf ≠ []) :
    ∑ v : Byte, Real.negMulLog ((byteFreq buf v : ℝ) / buf.length) ≤ Real.log 256 := by
  have hlen : 0 < buf.length := List.length_pos.mpr hne
  have hlenR : (0:ℝ) < buf.length := by exact_mod_cast hlen
  set q : Byte → ℝ := fun v => (byteFreq buf v : ℝ) / buf.length with hq
  have hq0 : ∀ v, 0 ≤ q v := fun v => div_nonneg (by positivity) (le_of_lt hlenR)
  have hqsum : ∑ v : Byte, q v = 1 := by
    rw [hq]
    rw [← Finset.sum_div]
    rw [div_eq_one_iff_eq (ne_of_gt hlenR)]
    exact_mod_cast sum_byteFreq buf
  have jensen := Real.concaveOn_negMulLog.le_map_sum
    (t := (Finset.univ : Finset Byte))
    (w := fun _ => (256:ℝ)⁻¹) (p := fun v => 256 * q v)
    (fun _ _ => by norm_num)
    (by simp [Finset.sum_const, Finset.card_univ])
    (fun v _ => by
      have := hq0 v
      simp only [Set.mem_Ici]
      positivity)
  have hinner : ∑ v : Byte, (256:ℝ)⁻¹ • (256 * q v) = 1 := by
    have : ∀ v : Byte, (256:ℝ)⁻¹ • (256 * q v) = q v := by
      intro v; rw [smul_eq_mul]; ring
    rw [Finset.sum_congr rfl (fun v _ => this v), hqsum]
  rw [hinner, Real.negMulLog_one] at jensen
  have hexpand : ∀ v : Byte, (256:ℝ)⁻¹ • Real.negMulLog (256 * q v)
      = (Real.negMulLog 256 / 256) * q v + Real.negMulLog (q v) := by
    intro v
    rw [smul_eq_mul, Real.negMulLog_mul]
    ring
  rw [Finset.sum_congr rfl (fun v _ => hexpand v), Finset.sum_add_distrib,
      ← Finset.mul_sum, hqsum, mul_one] at jensen
  have hnm : Real.negMulLog 256 / 256 = -Real.log 256 := by
    rw [Real.negMulLog]
    ring
  rw [hnm] at jensen
  linarith

theorem entropySum_le_eight (buf : List Byte) : entropySum buf ≤ 8 := by
  by_cases hne : buf = []
  · subst hne
    simp [entropySum, byteFreq]
  · rw [entropySum_eq_negMulLog]
    have hlog2 : 0 < Real.log 2 := Real.log_pos (by norm_num)
    have hbound := sum_negMulLog_le buf hne
    have h256 : Real.log 256 = 8 * Real.log 2 := by
      have : (256:ℝ) = 2 ^ (8:ℕ) := by norm_num
      rw [this, Real.log_pow]
      norm_num
    rw [div_le_iff₀ hlog2]
    linarith

/-- Entropy stays in `[0,1]` for every buffer. -/
theorem simpleEntropyEstimate_mem (buf : List Byte) :
    0 ≤ simpleEntropyEstimate buf ∧ simpleEntropyEstimate buf ≤ 1 := by
  have h0 := entropySum_nonneg buf
  have h8 := entropySum_le_eight buf
  constructor
  · apply div_nonneg _ (by norm_num)
    exact_mod_cast jsRound_nonneg (by nlinarith)
  · rw [simpleEntropyEstimate, div_le_one (by norm_num)]
    have : jsRound ((entropySum buf / 8) * 100) ≤ (100:ℤ) := by
      apply jsRound_le
      push_cast
      nlinarith
    exact_mod_cast this

theorem audioAiScore_eq_zero (hf : HFResult) : audioAiScore hf = 0 := rfl

theorem compositeScore_eq_heuristic (hf : HFResult) (buf : List Byte) :
    compositeScore hf buf = (jsRound (0.3 * simpleEntropyEstimate buf * 100) : ℝ) / 100 := by
  have harg : (0 * 0.7 + simpleEntropyEstimate buf * 0.3) * 100
      = 0.3 * simpleEntropyEstimate buf * 100 := by ring
  rw [compositeScore, audioAiScore_eq_zero, harg]

/-- Zero-byte ratio stays in `[0,1]` for every non-empty buffer. -/
theorem zeroByteRatio_mem (buf : List Byte) (hne : buf ≠ []) :
    0 ≤ zeroByteRatio buf ∧ zeroByteRatio buf ≤ 1 := by
  have hlen : 0 < buf.length := List.length_pos.mpr hne
  have hlenR : (0:ℝ) < buf.length := by exact_mod_cast hlen
  have hcount : (buf.count 0 : ℝ) ≤ buf.length := by
    exact_mod_cast List.count_le_length (0 : Byte) buf
  have hfrac0 : 0 ≤ ((buf.count 0 : ℝ) / buf.length) := by positivity
  have hfrac1 : ((buf.count 0 : ℝ) / buf.length) ≤ 1 := by
    rw [div_le_one hlenR]
    exact hcount
  constructor
  · apply div_nonneg _ (by norm_num)
    exact_mod_cast jsRound_nonneg (by nlinarith)
  · rw [zeroByteRatio, div_le_one (by norm_num)]
    have : jsRound (((buf.count 0 : ℝ) / buf.length) * 100) ≤ (100:ℤ) := by
      apply jsRound_le
      push_cast
      nlinarith
    exact_mod_cast this

/-- Composite trust score stays in `[0,1]` for every buffer and HF outcome. -/
theorem compositeScore_mem (hf : HFResult) (buf : List Byte) :
    0 ≤ compositeScore hf buf ∧ compositeScore hf buf ≤ 1 := by
  obtain ⟨he0, he1⟩ := simpleEntropyEstimate_mem buf
  rw [compositeScore, audioAiScore_eq_zero]
  constructor
  · apply div_nonneg _ (by norm_num)
    exact_mod_cast jsRound_nonneg (by nlinarith)
  · rw [div_le_one (by norm_num)]
    have : jsRound ((0 * 0.7 + simpleEntropyEstimate buf * 0.3) * 100) ≤ (100:ℤ) := by
      apply jsRound_le
      push_cast
      nlinarith
    exact_mod_cast this

/-- C1: for every byte buffer accepted by the pipeline (the minimal valid
input being a single byte) and every upstream outcome, the derived entropy,
the zero-byte ratio and the composite trust score all lie in `[0,1]`. -/
theorem claim1_bounds (buf : List Byte) (hf : HFResult) (hne : buf ≠ []) :
    (0 ≤ simpleEntropyEstimate buf ∧ simpleEntropyEstimate buf ≤ 1) ∧
    (0 ≤ zeroByteRatio buf ∧ zeroByteRatio buf ≤ 1) ∧
    (0 ≤ compositeScore hf buf ∧ compositeScore hf buf ≤ 1) :=
  ⟨simpleEntropyEstimate_mem buf, zeroByteRatio_mem buf hne, compositeScore_mem hf buf⟩

/-- Witness for C1 at the minimal valid input, a single zero byte. -/
theorem claim1_bounds_witness :
    ([(0 : Byte)] ≠ [] : Prop) ∧
    ((0 ≤ simpleEntropyEstimate [(0 : Byte)] ∧ simpleEntropyEstimate [(0 : Byte)] ≤ 1) ∧
     (0 ≤ zeroByteRatio [(0 : Byte)] ∧ zeroByteRatio [(0 : Byte)] ≤ 1) ∧
     (0 ≤ compositeScore (HFResult.note "HF not configured") [(0 : Byte)] ∧
      compositeScore (HFResult.note "HF not configured") [(0 : Byte)] ≤ 1)) :=
  ⟨by decide, claim1_bounds [(0 : Byte)] (HFResult.note "HF not configured") (by decide)⟩

/-- C10: `breakdown.ai` is always `0` because no value produced by
`callHuggingFaceAudio` carries a `score` field, so the composite score
collapses to `round(0.3 * entropy * 100)/100` and never exceeds `0.3`,
for every upstream outcome and every buffer. -/
theorem claim10_composite_collapses (hf : HFResult) (buf : List Byte) :
    audioAiScore hf = 0 ∧
    compositeScore hf buf = (jsRound (0.3 * simpleEntropyEstimate buf * 100) : ℝ) / 100 ∧
    compositeScore hf buf ≤ 0.3 := by
  obtain ⟨he0, he1⟩ := simpleEntropyEstimate_mem buf
  refine ⟨rfl, compositeScore_eq_heuristic hf buf, ?_⟩
  · rw [compositeScore, audioAiScore_eq_zero]
    have : jsRound ((0 * 0.7 + simpleEntropyEstimate buf * 0.3) * 100) ≤ (30:ℤ) := by
      apply jsRound_le
      push_cast
      nlinarith
    have h30 : (jsRound ((0 * 0.7 + simpleEntropyEstimate buf * 0.3) * 100) : ℝ) ≤ 30 := by
      exact_mod_cast this
    linarith

/- ### Upstream failure handling (ensemble handler) -/

theorem queryModel_failed (r : UpstreamResp) (h : upstreamFailed r) :
    queryModel r = some 0 ∨ queryModel r = none := by
  cases r with
  | transportError => exact Or.inl rfl
  | nonArray => exact Or.inl rfl
  | arr items =>
    simp only [upstreamFailed] at h
    simp only [queryModel]
    cases hfind : findFake items with
    | threw => simp
    | notFound => simp
    | found s =>
      rw [hfind] at h
      cases s with
      | none => simp
      | some q => exact absurd h (by simp)

theorem stepAi_of_some {r : UpstreamResp} {s : ℚ} (h : queryModel r = some s)
    (acc : ℚ) : stepAi acc r = if s > acc then s else acc := by
  simp [stepAi, h]

theorem stepAi_of_none {r : UpstreamResp} (h : queryModel r = none)
    (acc : ℚ) : stepAi acc r = acc := by
  simp [stepAi, h]

/-- C2 counterexample: a transport error is represented by `queryModel` as
the plain number `0`, the very value produced by a successful extraction
of a genuine score `0`; there is no `succeeded=false` / `score=None`
marking. -/
theorem claim2_counterexample :
    queryModel UpstreamResp.transportError = some 0 ∧
    queryModel (UpstreamResp.arr [⟨some "fake", some 0⟩]) = some 0 ∧
    ¬ upstreamFailed (UpstreamResp.arr [⟨some "fake", some 0⟩]) := by
  refine ⟨rfl, ?_, fun h => h⟩
  rfl

/-- C2 (amended): a transport error, timeout, non-JSON response, or a
response with no extractable numeric score never crashes the request and
never yields a negative score, but it is not marked as failed: `queryModel`
returns the number `0` (or JS `undefined` when a matching label has no
numeric score), and such an outcome leaves the running `aiScore`
accumulator unchanged. -/
theorem claim2_failed_upstream_is_zero (r : UpstreamResp) (h : upstreamFailed r) :
    (queryModel r = some 0 ∨ queryModel r = none) ∧
    ∀ acc : ℚ, 0 ≤ acc → stepAi acc r = acc := by
  refine ⟨queryModel_failed r h, ?_⟩
  intro acc hacc
  rcases queryModel_failed r h with hq | hq
  · rw [stepAi_of_some hq acc, if_neg (not_lt.mpr hacc)]
  · exact stepAi_of_none hq acc

/-- Witness for C2 (amended) at a concrete transport error. -/
theorem claim2_failed_upstream_is_zero_witness :
    (queryModel UpstreamResp.transportError = some 0 ∨
     queryModel UpstreamResp.transportError = none) ∧
    stepAi 5 UpstreamResp.transportError = 5 :=
  ⟨(claim2_failed_upstream_is_zero UpstreamResp.transportError trivial).1,
   (claim2_failed_upstream_is_zero UpstreamResp.transportError trivial).2 5 (by norm_num)⟩

theorem foldl_stepAi_zero (rs : List UpstreamResp)
    (h : ∀ r ∈ rs, upstreamFailed r) : rs.foldl stepAi 0 = 0 := by
  induction rs with
  | nil => rfl
  | cons r rest ih =>
    have hr : stepAi 0 r = 0 := by
      rcases queryModel_failed r (h r (by simp)) with hq | hq
      · rw [stepAi_of_some hq 0, if_neg (by norm_num)]
      · exact stepAi_of_none hq 0
    rw [List.foldl_cons, hr]
    exact ih (fun x hx => h x (by simp [hx]))

theorem aiScoreOf_failed (key : Bool) (rs : List UpstreamResp)
    (h : key = false ∨ ∀ r ∈ rs, upstreamFailed r) : aiScoreOf key rs = 0 := by
  rcases h with h | h
  · simp [aiScoreOf, h]
  · cases key with
    | false => simp [aiScoreOf]
    | true =>
      simp only [aiScoreOf, if_pos]
      exact foldl_stepAi_zero rs h

theorem physicsScoreOf_nonneg (p : Physics) : 0 ≤ physicsScoreOf p := by
  rw [physicsScoreOf]
  apply add_nonneg <;> split <;> norm_num

theorem metaRiskOf_nonneg (isMp3 hasLavf : Bool) : 0 ≤ metaRiskOf isMp3 hasLavf := by
  rw [metaRiskOf]
  split <;> norm_num

/-- C3: when the external classifier key is unconfigured, or every
configured upstream call fails, the final score is exactly the maximum of
the two locally computed heuristic signals (signal physics and encoder
fingerprint), the reported `method` tag never names the external
classifier, and in the main handler the composite score is a function of
the entropy heuristic alone. -/
theorem claim3_fallback_heuristics_only (key : Bool) (rs : List UpstreamResp)
    (phys : Physics) (isMp3 hasLavf : Bool) (hf : HFResult) (buf : List Byte)
    (h : key = false ∨ ∀ r ∈ rs, upstreamFailed r) :
    finalScore (aiScoreOf key rs) (physicsScoreOf phys) (metaRiskOf isMp3 hasLavf)
      = max (physicsScoreOf phys) (metaRiskOf isMp3 hasLavf) ∧
    methodOf (aiScoreOf key rs) (physicsScoreOf phys) (metaRiskOf isMp3 hasLavf)
      ≠ "NEURAL_AUDIO_NET" ∧
    compositeScore hf buf = (jsRound (0.3 * simpleEntropyEstimate buf * 100) : ℝ) / 100 := by
  rw [aiScoreOf_failed key rs h]
  refine ⟨?_, ?_, compositeScore_eq_heuristic hf buf⟩
  · rw [finalScore]
    exact max_eq_right (le_max_of_le_left (physicsScoreOf_nonneg phys))
  · rw [methodOf, if_neg (by norm_num : ¬ ((0:ℚ) > 0.5))]
    split
    · decide
    · split
      · decide
      · decide

/-- Witness for C3 with no key configured and no upstream responses. -/
theorem claim3_fallback_heuristics_only_witness :
    finalScore (aiScoreOf false []) (physicsScoreOf ⟨false, 255⟩)
        (metaRiskOf false false)
      = max (physicsScoreOf ⟨false, 255⟩) (metaRiskOf false false) ∧
    methodOf (aiScoreOf false []) (physicsScoreOf ⟨false, 255⟩)
        (metaRiskOf false false) ≠ "NEURAL_AUDIO_NET" ∧
    compositeScore (HFResult.note "HF not configured") [(0 : Byte)]
      = (jsRound (0.3 * simpleEntropyEstimate [(0 : Byte)] * 100) : ℝ) / 100 :=
  claim3_fallback_heuristics_only false [] ⟨false, 255⟩ false false
    (HFResult.note "HF not configured") [(0 : Byte)] (Or.inl rfl)

/- ### Silence detection -/

theorem strideAux_skip (l rest : List Byte) :
    strideAux l.length (l ++ rest) = strideAux 0 rest := by
  induction l with
  | nil => rfl
  | cons x xs ih => simpa [strideAux] using ih

theorem strideAux_skip49 (l rest : List Byte) (h : l.length = 49) :
    strideAux 49 (l ++ rest) = strideAux 0 rest := by
  rw [← h]
  exact strideAux_skip l rest

theorem sampleStride_zeros (k : ℕ) (tail : List Byte) :
    sampleStride (List.replicate (50*k) (0:Byte) ++ tail)
      = List.replicate k (0:Byte) ++ sampleStride tail := by
  induction k with
  | zero => simp [sampleStride]
  | succ n ih =>
    have hsplit : List.replicate (50*(n+1)) (0:Byte) ++ tail
        = (0:Byte) :: (List.replicate 49 0 ++ (List.replicate (50*n) 0 ++ tail)) := by
      rw [show 50*(n+1) = (1+49)+50*n by ring, List.replicate_add, List.replicate_add]
      simp
    rw [sampleStride, hsplit]
    have hskip : strideAux 0 ((0:Byte) :: (List.replicate 49 0 ++ (List.replicate (50*n) 0 ++ tail)))
        = (0:Byte) :: strideAux 49 (List.replicate 49 0 ++ (List.replicate (50*n) 0 ++ tail)) := rfl
    rw [hskip, strideAux_skip49 _ _ (by simp)]
    have hfold : strideAux 0 (List.replicate (50*n) (0:Byte) ++ tail)
        = List.replicate n (0:Byte) ++ sampleStride tail := ih
    rw [hfold, List.replicate_succ, List.cons_append]

theorem stride_map_range' (g : ℕ → Byte) (m : ℕ) : ∀ a : ℕ,
    sampleStride ((List.range' a (50*m)).map g)
      = (List.range m).map (fun k => g (a + 50*k)) := by
  induction m with
  | zero => intro a; simp [sampleStride, strideAux]
  | succ n ih =>
    intro a
    have hsplit : List.range' a (50*(n+1)) = a :: (List.range' (a+1) 49 ++ List.range' (a+50) (50*n)) := by
      rw [show a + 50 = (a+1)+49 by omega, List.range'_append_1,
          show 50*(n+1) = (49+50*n)+1 by ring, List.range'_succ]
      congr 2
      omega
    rw [hsplit, List.map_cons, List.map_append, sampleStride]
    have hskip : strideAux 0 (g a :: ((List.range' (a+1) 49).map g ++ (List.range' (a+50) (50*n)).map g))
        = g a :: strideAux 49 ((List.range' (a+1) 49).map g ++ (List.range' (a+50) (50*n)).map g) := rfl
    rw [hskip, strideAux_skip49 _ _ (by simp)]
    have hrec : strideAux 0 ((List.range' (a+50) (50*n)).map g)
        = (List.range n).map (fun k => g (a + 50 + 50*k)) := ih (a+50)
    rw [hrec, List.range_succ_eq_map, List.map_cons, List.map_map]
    have hh : g (a + 50*0) = g a := by norm_num
    rw [hh]
    congr 1
    apply List.map_congr_left
    intro k _
    simp only [Function.comp_apply, Nat.succ_eq_add_one]
    congr 1
    ring

theorem signalStep_segs_le (st : SignalState) (v : Byte) :
    st.segs ≤ (signalStep st v).segs := by
  rw [signalStep]
  split
  · simp only
    split <;> omega
  · exact le_refl _

theorem foldl_segs_le (l : List Byte) (st : SignalState) :
    st.segs ≤ (l.foldl signalStep st).segs := by
  induction l generalizing st with
  | nil => exact le_refl _
  | cons x xs ih =>
    rw [List.foldl_cons]
    exact le_trans (signalStep_segs_le st x) (ih _)

set_option maxRecDepth 4000 in
theorem foldl_zeros200 :
    (List.replicate 200 (0:Byte)).foldl signalStep ⟨0, 255, 0, 0⟩
      = ⟨200, 0, 0, 150⟩ := by decide

theorem pseudoRandomBuf_length (n : ℕ) : (pseudoRandomBuf n).length = n := by
  simp [pseudoRandomBuf]

/-- C5: a buffer of 10,000 zero bytes followed by any 10,000-byte tail
(in particular a uniformly random one) triggers digital-silence detection,
while a 20,000-byte pseudo-random buffer does not; the detector scans at
stride 50, counts runs of flat bytes (0 or 128), and fires once the
segment counter exceeds 2. -/
theorem claim5_silence_detection (tail : List Byte) (_hlen : tail.length = 10000) :
    (analyzeSignal (List.replicate 10000 (0:Byte) ++ tail)).hasDigitalSilence = true ∧
    (analyzeSignal (pseudoRandomBuf 20000)).hasDigitalSilence = false := by
  constructor
  · simp only [analyzeSignal]
    rw [show (10000:ℕ) = 50*200 by norm_num, sampleStride_zeros,
        List.foldl_append, foldl_zeros200]
    have hseg : (150:ℕ) ≤ (List.foldl signalStep ⟨200, 0, 0, 150⟩ (sampleStride tail)).segs :=
      foldl_segs_le (sampleStride tail) ⟨200, 0, 0, 150⟩
    simp only [decide_eq_true_eq]
    omega
  · simp only [analyzeSignal, pseudoRandomBuf, List.range_eq_range']
    rw [show (20000:ℕ) = 50*400 by norm_num, stride_map_range']
    decide

/-- Witness for C5 with a concrete pseudo-random tail. -/
theorem claim5_silence_detection_witness :
    (pseudoRandomBuf 10000).length = 10000 ∧
    (analyzeSignal (List.replicate 10000 (0:Byte) ++ pseudoRandomBuf 10000)).hasDigitalSilence
      = true :=
  ⟨pseudoRandomBuf_length 10000,
   (claim5_silence_detection (pseudoRandomBuf 10000) (pseudoRandomBuf_length 10000)).1⟩

/- ### Size guard -/

/-- C4: an artifact whose byte length equals the configured maximum is
accepted and scored; an artifact exceeding the maximum by one byte or
more is rejected with the 413 payload-too-large error, whose response
carries no scoring output. -/
theorem claim4_size_guard (maxBytes : ℕ) (hf : HFResult) (meta : MetaResult)
    (now filename mimetype : String) (bufAt bufOver : List Byte)
    (hat : bufAt.length = maxBytes) (hover : bufOver.length > maxBytes) :
    handlerPost maxBytes hf meta now filename mimetype bufAt
      = .success (scoringPipeline hf meta now filename mimetype bufAt) ∧
    handlerPost maxBytes hf meta now filename mimetype bufOver
      = .errorResp 413 s!"File too large (max {maxBytes} bytes)" := by
  constructor
  · rw [handlerPost, if_neg (by simp [hat])]
  · rw [handlerPost, if_pos hover]

/-- Witness for C4 with `MAX_BYTES = 2`. -/
theorem claim4_size_guard_witness :
    handlerPost 2 (HFResult.note "n") (MetaResult.parseFailed "d") "t" "f" "m" [0, 0]
      = HandlerResult.success
          (scoringPipeline (HFResult.note "n") (MetaResult.parseFailed "d") "t" "f" "m" [0, 0]) ∧
    handlerPost 2 (HFResult.note "n") (MetaResult.parseFailed "d") "t" "f" "m" [0, 0, 0]
      = HandlerResult.errorResp 413 "File too large (max 2 bytes)" :=
  claim4_size_guard 2 (HFResult.note "n") (MetaResult.parseFailed "d") "t" "f" "m"
    [0, 0] [0, 0, 0] (by decide) (by decide)

/- ### Format detection -/

theorem likelyFormat_wav_of_lead (buf : List Byte) (h : buf.take 4 = [82,73,70,70]) :
    likelyFormat buf = "wav" := by
  have hc : containsSeq [82,73,70,70] (asciiTake 4 buf) = true := by
    rw [asciiTake, h]
    decide
  rw [likelyFormat, if_pos hc]

theorem likelyFormat_mp3_of_lead (buf : List Byte) (h : buf.take 3 = [73,68,51]) :
    likelyFormat buf = "mp3" := by
  have h4 : buf.take 4 = [73,68,51] ++ (buf.drop 3).take 1 := by
    rw [show (4:ℕ) = 3+1 from rfl, List.take_add, h]
  have hwav : containsSeq [82,73,70,70] (asciiTake 4 buf) = false := by
    rw [asciiTake, h4]
    rcases hd : (buf.drop 3).take 1 with _ | ⟨b, t⟩
    · decide
    · have ht : t = [] := by
        have hlen := congrArg List.length hd
        simp [List.length_take] at hlen
        have : t.length = 0 := by omega
        exact List.length_eq_zero.mp this
      subst ht
      simp [containsSeq, List.isPrefixOf, asciiByte]
      intro h
      exact absurd h (by decide)
  have hmp3 : asciiTake 3 buf = [73,68,51] := by
    rw [asciiTake, h]
    decide
  rw [likelyFormat, if_neg (by simp [hwav]), if_pos hmp3]

theorem likelyFormat_flac_of_lead (buf : List Byte) (h : buf.take 4 = [102,76,97,67]) :
    likelyFormat buf = "flac" := by
  have hwav : containsSeq [82,73,70,70] (asciiTake 4 buf) = false := by
    rw [asciiTake, h]
    decide
  have h3 : buf.take 3 = [102,76,97] := by
    rw [show (3:ℕ) = min 3 4 from rfl, ← List.take_take, h]
    rfl
  have hmp3 : asciiTake 3 buf ≠ [73,68,51] := by
    rw [asciiTake, h3]
    decide
  have hflac : containsSeq [102,76,97,67] (asciiTake 4 buf) = true := by
    rw [asciiTake, h]
    decide
  rw [likelyFormat, if_neg (by simp [hwav]), if_neg hmp3, if_pos hflac]

theorem likelyFormat_unknown (buf : List Byte)
    (h1 : containsSeq [82,73,70,70] (asciiTake 4 buf) = false)
    (h2 : asciiTake 3 buf ≠ [73,68,51])
    (h3 : containsSeq [102,76,97,67] (asciiTake 4 buf) = false) :
    likelyFormat buf = "unknown" := by
  rw [likelyFormat, if_neg (by simp [h1]), if_neg h2, if_neg (by simp [h3])]

/-- C6 counterexample: a buffer beginning with `RIFF` but without `WAVE`
at offset 8 matches none of the three patterns of the claim, which
therefore requires `unknown`; the code classifies it `wav`, because the
source never inspects offset 8. -/
theorem claim6_counterexample :
    likelyFormat [82,73,70,70,1,2,3,4,65,65,65,65] = "wav" ∧
    (List.drop 8 [(82:Byte),73,70,70,1,2,3,4,65,65,65,65]).take 4 ≠ [87,65,86,69] := by
  constructor
  · decide
  · decide

/-- C6 (amended): format detection is prefix-only. A buffer whose first
four bytes are `RIFF` is classified `wav` (no `WAVE` check at offset 8);
a buffer beginning with `ID3` is `mp3`; a buffer beginning with `fLaC` is
`flac`; a buffer matching none of the three high-bit-masked prefix tests
is `unknown`. -/
theorem claim6_format_detection (buf : List Byte) :
    (buf.take 4 = [82,73,70,70] → likelyFormat buf = "wav") ∧
    (buf.take 3 = [73,68,51] → likelyFormat buf = "mp3") ∧
    (buf.take 4 = [102,76,97,67] → likelyFormat buf = "flac") ∧
    (containsSeq [82,73,70,70] (asciiTake 4 buf) = false →
     asciiTake 3 buf ≠ [73,68,51] →
     containsSeq [102,76,97,67] (asciiTake 4 buf) = false →
     likelyFormat buf = "unknown") :=
  ⟨likelyFormat_wav_of_lead buf, likelyFormat_mp3_of_lead buf,
   likelyFormat_flac_of_lead buf, likelyFormat_unknown buf⟩

/-- Witness for C6 (amended) on four concrete buffers. -/
theorem claim6_format_detection_witness :
    likelyFormat [82,73,70,70,1,1,1,1,87,65,86,69] = "wav" ∧
    likelyFormat [73,68,51,4] = "mp3" ∧
    likelyFormat [102,76,97,67] = "flac" ∧
    likelyFormat [255,0,1,2] = "unknown" :=
  ⟨(claim6_format_detection [82,73,70,70,1,1,1,1,87,65,86,69]).1 (by decide),
   (claim6_format_detection [73,68,51,4]).2.1 (by decide),
   (claim6_format_detection [102,76,97,67]).2.2.1 (by decide),
   (claim6_format_detection [255,0,1,2]).2.2.2 (by decide) (by decide) (by decide)⟩

/- ### Determinism and content-identity of derived features -/

/-- C7: the derived feature set (content hash, entropy, zero-byte ratio,
fingerprint, format guess) is a pure function of the byte content: two
invocations on identical bytes produce identical features, and neither the
filename, the declared mime type, the timestamp, nor the external signal
influences any derived field of the assembled reports. -/
theorem claim7_feature_determinism (f1 m1 t1 f2 m2 t2 : String)
    (r1 r2 : Option String) (hf1 hf2 : HFResult) (meta1 meta2 : MetaResult)
    (buf1 buf2 : List Byte) (h : buf1 = buf2) :
    deriveFeatures buf1 = deriveFeatures buf2 ∧
    (enterpriseReport t1 f1 m1 r1 buf1).sha256 = (enterpriseReport t2 f2 m2 r2 buf2).sha256 ∧
    (enterpriseReport t1 f1 m1 r1 buf1).entropy = (enterpriseReport t2 f2 m2 r2 buf2).entropy ∧
    (enterpriseReport t1 f1 m1 r1 buf1).zeroByteRatio
      = (enterpriseReport t2 f2 m2 r2 buf2).zeroByteRatio ∧
    (enterpriseReport t1 f1 m1 r1 buf1).likelyFormat
      = (enterpriseReport t2 f2 m2 r2 buf2).likelyFormat ∧
    (scoringPipeline hf1 meta1 t1 f1 m1 buf1).fingerprint
      = (scoringPipeline hf2 meta2 t2 f2 m2 buf2).fingerprint ∧
    (scoringPipeline hf1 meta1 t1 f1 m1 buf1).entropy
      = (scoringPipeline hf2 meta2 t2 f2 m2 buf2).entropy := by
  subst h
  exact ⟨rfl, rfl, rfl, rfl, rfl, rfl, rfl⟩

/-- Witness for C7 on a concrete three-byte buffer. -/
theorem claim7_feature_determinism_witness :
    deriveFeatures [1, 2, 3] = deriveFeatures [1, 2, 3] ∧
    (enterpriseReport "t1" "a.mp3" "audio/mpeg" (some "r") [1, 2, 3]).sha256
      = (enterpriseReport "t2" "b.wav" "audio/wav" none [1, 2, 3]).sha256 ∧
    (enterpriseReport "t1" "a.mp3" "audio/mpeg" (some "r") [1, 2, 3]).entropy
      = (enterpriseReport "t2" "b.wav" "audio/wav" none [1, 2, 3]).entropy ∧
    (enterpriseReport "t1" "a.mp3" "audio/mpeg" (some "r") [1, 2, 3]).zeroByteRatio
      = (enterpriseReport "t2" "b.wav" "audio/wav" none [1, 2, 3]).zeroByteRatio ∧
    (enterpriseReport "t1" "a.mp3" "audio/mpeg" (some "r") [1, 2, 3]).likelyFormat
      = (enterpriseReport "t2" "b.wav" "audio/wav" none [1, 2, 3]).likelyFormat ∧
    (scoringPipeline (HFResult.note "n") (MetaResult.parsed "p") "t1" "a.mp3" "audio/mpeg"
        [1, 2, 3]).fingerprint
      = (scoringPipeline (HFResult.callFailed "e") (MetaResult.parseFailed "q") "t2" "b.wav"
          "audio/wav" [1, 2, 3]).fingerprint ∧
    (scoringPipeline (HFResult.note "n") (MetaResult.parsed "p") "t1" "a.mp3" "audio/mpeg"
        [1, 2, 3]).entropy
      = (scoringPipeline (HFResult.callFailed "e") (MetaResult.parseFailed "q") "t2" "b.wav"
          "audio/wav" [1, 2, 3]).entropy :=
  claim7_feature_determinism "a.mp3" "audio/mpeg" "t1" "b.wav" "audio/wav" "t2"
    (some "r") none (HFResult.note "n") (HFResult.callFailed "e")
    (MetaResult.parsed "p") (MetaResult.parseFailed "q") [1, 2, 3] [1, 2, 3] rfl

/- ### Empty and malformed base64 payloads -/

/-- C8 counterexample: the base64 field `"="` decodes to an empty buffer,
yet the handler does not fail with an empty-payload input error — it runs
the full scoring pipeline and returns a success response. -/
theorem claim8_counterexample :
    base64ToBuffer "=" = [] ∧
    (handlerJson 20971520 (HFResult.note "HF not configured") (MetaResult.parseFailed "d")
      "t" "upload.bin" ⟨some "=", none, some "clip.mp3", some "audio/mpeg"⟩).isSuccess
      = true := by
  exact ⟨by decide, rfl⟩

/-- C8 (amended): a request whose base64 `data` field decodes to an empty
buffer is not rejected — there is no empty-payload check — and the full
scoring pipeline runs on the empty buffer, producing a success report of
size 0. -/
theorem claim8_empty_payload_scored (maxBytes : ℕ) (hf : HFResult) (meta : MetaResult)
    (now dfn : String) (body : JsonBody) (s : String) (hs : body.data = some s)
    (hne : s ≠ "") (hdec : base64ToBuffer s = []) :
    handlerJson maxBytes hf meta now dfn body
      = .success (scoringPipeline hf meta now (strOr body.filename dfn)
          (strOr body.mimetype "application/octet-stream") []) := by
  have htr : strTruthy body.data = true := by
    rw [hs]
    simp [strTruthy, hne]
  rw [handlerJson, if_neg (by simp [htr]), if_pos htr, hs]
  simp only [Option.getD_some]
  rw [hdec, handlerPost, if_neg (by simp)]

/-- Witness for C8 (amended) at the concrete field value `"="`. -/
theorem claim8_empty_payload_scored_witness :
    handlerJson 100 (HFResult.note "n") (MetaResult.parseFailed "d") "t" "f"
      ⟨some "=", none, none, none⟩
      = HandlerResult.success (scoringPipeline (HFResult.note "n") (MetaResult.parseFailed "d")
          "t" "f" "application/octet-stream" []) :=
  claim8_empty_payload_scored 100 (HFResult.note "n") (MetaResult.parseFailed "d") "t" "f"
    ⟨some "=", none, none, none⟩ "=" rfl (by decide) (by decide)

/-- C9 counterexample: malformed base64 (`"!!!!"`, all characters invalid)
does not produce an invalid-encoding input error: the decoder silently
drops the invalid characters (a lossy decode — `"aG!k"` and `"aGk"`
decode identically) and the handler returns a success response. -/
theorem claim9_counterexample :
    (handlerJson 20971520 (HFResult.note "HF not configured") (MetaResult.parseFailed "d")
      "t" "upload.bin" ⟨some "!!!!", none, none, none⟩).isSuccess = true ∧
    base64ToBuffer "!!!!" = [] ∧
    base64ToBuffer "aG!k" = base64ToBuffer "aGk" := by
  exact ⟨rfl, by decide, by decide⟩

theorem filterMap_takeWhile_skip (c : Char) (hc : base64CharVal c = none)
    (hne : c ≠ '=') (pre post : List Char) :
    ((pre ++ c :: post).takeWhile notPadChar).filterMap base64CharVal
      = ((pre ++ post).takeWhile notPadChar).filterMap base64CharVal := by
  induction pre with
  | nil =>
    have hpc : notPadChar c = true := by simp [notPadChar, hne]
    simp [List.takeWhile_cons, hpc, List.filterMap_cons, hc]
  | cons x xs ih =>
    simp only [List.cons_append, List.takeWhile_cons]
    cases hpx : notPadChar x
    · simp
    · cases hfx : base64CharVal x <;> simp [List.filterMap_cons, hfx, ih]

theorem filterMap_takeWhile_stop (pre post : List Char) :
    ((pre ++ '=' :: post).takeWhile notPadChar).filterMap base64CharVal
      = (pre.takeWhile notPadChar).filterMap base64CharVal := by
  induction pre with
  | nil => simp [List.takeWhile_cons, notPadChar]
  | cons x xs ih =>
    simp only [List.cons_append, List.takeWhile_cons]
    cases hpx : notPadChar x
    · simp
    · cases hfx : base64CharVal x <;> simp [List.filterMap_cons, hfx, ih]

/-- C9 (amended): malformed base64 never produces an invalid-encoding
input error. A non-alphabet character other than `=` is silently dropped
by the decoder, the padding character `=` stops decoding at its first
occurrence (Node's `Buffer.from(..., "base64")` semantics), and the JSON
`data` path never returns a 400 input error: it either scores the lossily
decoded buffer or rejects it as too large with status 413. -/
theorem claim9_lossy_decode_no_error (c : Char) (pre post : List Char)
    (hc : base64CharVal c = none) (hne : c ≠ '=') (maxBytes : ℕ) (hf : HFResult)
    (meta : MetaResult) (now dfn : String) (body : JsonBody)
    (hdata : strTruthy body.data = true) :
    base64DecodeChars (pre ++ c :: post) = base64DecodeChars (pre ++ post) ∧
    base64DecodeChars (pre ++ '=' :: post) = base64DecodeChars pre ∧
    ∀ msg, handlerJson maxBytes hf meta now dfn body ≠ .errorResp 400 msg := by
  refine ⟨?_, ?_, ?_⟩
  · rw [base64DecodeChars, base64DecodeChars, filterMap_takeWhile_skip c hc hne pre post]
  · rw [base64DecodeChars, base64DecodeChars, filterMap_takeWhile_stop pre post]
  · intro msg
    rw [handlerJson, if_neg (by simp [hdata]), if_pos hdata, handlerPost]
    split
    · intro heq
      simp at heq
    · intro heq
      simp at heq

/-- Witness for C9 (amended): the invalid character `!` between valid
characters, a padding character cutting the tail off, and the concrete
malformed field `"!!!!"`. -/
theorem claim9_lossy_decode_no_error_witness :
    base64DecodeChars (['a'] ++ '!' :: ['b']) = base64DecodeChars (['a'] ++ ['b']) ∧
    base64DecodeChars (['a'] ++ '=' :: ['b']) = base64DecodeChars ['a'] ∧
    handlerJson 100 (HFResult.note "n") (MetaResult.parseFailed "d") "t" "f"
      ⟨some "!!!!", none, none, none⟩ ≠ HandlerResult.errorResp 400 "invalid encoding" :=
  ⟨(claim9_lossy_decode_no_error '!' ['a'] ['b'] (by decide) (by decide) 100
      (HFResult.note "n") (MetaResult.parseFailed "d") "t" "f"
      ⟨some "!!!!", none, none, none⟩ (by decide)).1,
   (claim9_lossy_decode_no_error '!' ['a'] ['b'] (by decide) (by decide) 100
      (HFResult.note "n") (MetaResult.parseFailed "d") "t" "f"
      ⟨some "!!!!", none, none, none⟩ (by decide)).2.1,
   (claim9_lossy_decode_no_error '!' ['a'] ['b'] (by decide) (by decide) 100
      (HFResult.note "n") (MetaResult.parseFailed "d") "t" "f"
      ⟨some "!!!!", none, none, none⟩ (by decide)).2.2 "invalid encoding"⟩
